import Mathlib

/-!
Verification of the Andromeda "kernel" (andromeda_kernel.py): a console
dispatch loop over a session-record store.  The Python source is embedded
shallowly: Python strings become `String` (operations such as `lower`,
`split`, `strip`, `startswith` and substring membership are re-implemented
on `List Char` below, restricted as Python's to the characters that can
occur here); Python floats become `ℚ` (the only float operations performed
by the program are comparisons and printing of exact decimal literals);
`uuid.uuid4()` and `datetime.now()` become oracle fields of an environment
record; the filesystem becomes a write log, and a fallible `open` is
modelled by an oracle saying which file names can be opened for writing.
Print-only narration functions of the source (`sense_environment`,
`tutor_preview`, `trace_execution`, `reflect_outcome`, `meta_mutate`,
`sandbox_bridge`, `chaos_kernel`, `plugin_install`, `edit_scaffold`) have
no effect on the store and are represented only by the dispatch action
they correspond to.
-/

/-! ## Python string primitives -/

/-- Python `str.lower`, restricted to the character-wise case used here. -/
def pyLower (s : String) : String := String.mk (s.data.map Char.toLower)

/-- Python `a.startswith(b)` on exploded strings. -/
def listPrefOf : List Char → List Char → Bool
  | [], _ => true
  | _ :: _, [] => false
  | a :: as, b :: bs => a == b && listPrefOf as bs

/-- Python `a.startswith(b)`. -/
def strStartsWith (s pre : String) : Bool := listPrefOf pre.data s.data

/-- Python substring membership `sub in s` on exploded strings. -/
def listSub (sub : List Char) : List Char → Bool
  | [] => sub.isEmpty
  | b :: bs => listPrefOf sub (b :: bs) || listSub sub bs

/-- Python substring membership `sub in s`. -/
def strIn (sub s : String) : Bool := listSub sub.data s.data

/-- Python character membership `c in s`. -/
def strHasChar (s : String) (c : Char) : Bool := s.data.contains c

/-- Python `s.split(c)` (single-character separator, keeps empty groups). -/
def splitCh (c : Char) : List Char → List (List Char)
  | [] => [[]]
  | a :: as =>
    if a = c then [] :: splitCh c as
    else
      match splitCh c as with
      | [] => [[a]]
      | g :: gs => (a :: g) :: gs

/-- Python whitespace for `str.strip`. -/
def isPySpace (c : Char) : Bool :=
  c = ' ' || c = '\t' || c = '\n' || c = '\x0b' || c = '\x0c' || c = '\r'

/-- Python `str.strip` on exploded strings. -/
def stripChars (l : List Char) : List Char :=
  ((l.dropWhile isPySpace).reverse.dropWhile isPySpace).reverse

/-- Python `str.strip`. -/
def pyStrip (s : String) : String := String.mk (stripChars s.data)

/-- Python `s.split(' ', 1)[-1]`: everything after the first space, or `s`
itself when `s` holds no space. -/
def afterFirstSplit (s : String) : String :=
  match s.data.dropWhile (fun c => c ≠ ' ') with
  | [] => s
  | _ :: t => String.mk t

/-- Python `s.split(' ')[-1]`: the last space-separated group. -/
def lastSpaceGroup (s : String) : String :=
  String.mk ((splitCh ' ' s.data).getLastD [])

/-- Python slice `s[:n]`. -/
def strTake (s : String) (n : Nat) : String := String.mk (s.data.take n)

/-- Python `s.split('T')[0]`: the prefix before the first `'T'`. -/
def beforeT (s : String) : String := String.mk (s.data.takeWhile (fun c => c ≠ 'T'))

/-- Python format spec `{x:<20}`: left-justify to the given width. -/
def padTo (s : String) (w : Nat) : String :=
  s ++ String.mk (List.replicate (w - s.length) ' ')

/-- The float literal `0.91` of the ranking table, as the exact rational it
denotes (the program only compares and prints its float constants, and
those operations are exact on these values; the explicit normalized
numerator/denominator form keeps every comparison kernel-computable). -/
def q091 : ℚ := ⟨91, 100, by norm_num, by norm_num⟩

/-- The float literal `0.83` of the ranking table. -/
def q083 : ℚ := ⟨83, 100, by norm_num, by norm_num⟩

/-- The float literal `0.76` of the ranking table (76/100 in lowest terms). -/
def q076 : ℚ := ⟨19, 25, by norm_num, by norm_num⟩

/-- The float literal `0.9`, the confidence threshold of `launch`. -/
def q090 : ℚ := ⟨9, 10, by norm_num, by norm_num⟩

/-- Python `repr` of the float literals that occur in this program (the
source only ever prints the exact decimal constants of its tables). -/
def pyFloatRepr (q : ℚ) : String :=
  if q = q091 then "0.91"
  else if q = q083 then "0.83"
  else if q = q076 then "0.76"
  else if q = q090 then "0.9"
  else toString q.num ++ "/" ++ toString q.den

/-! ## JSON rendering (`json.dump(..., indent=2)`) -/

/-- One lowercase hex digit, as CPython's json encoder emits. -/
def hexDig (n : Nat) : Char :=
  if n < 10 then Char.ofNat (48 + n) else Char.ofNat (87 + n)

/-- Four lowercase hex digits. -/
def hex4 (n : Nat) : String :=
  String.mk [hexDig (n / 4096 % 16), hexDig (n / 256 % 16), hexDig (n / 16 % 16),
             hexDig (n % 16)]

/-- CPython `json` string escaping with `ensure_ascii=True` (the default used
by `json.dump` in `export_docs`): the named escapes, and `\uXXXX` (surrogate
pairs above the BMP) for every character outside `0x20`–`0x7e`. -/
def jsonEscapeChar (c : Char) : String :=
  if c = '"' then "\\\""
  else if c = '\\' then "\\\\"
  else if c.val = 8 then "\\b"
  else if c.val = 12 then "\\f"
  else if c = '\n' then "\\n"
  else if c.val = 13 then "\\r"
  else if c = '\t' then "\\t"
  else if c.val < 32 || c.val > 126 then
    if c.toNat ≤ 65535 then "\\u" ++ hex4 c.toNat
    else "\\u" ++ hex4 (55296 + (c.toNat - 65536) / 1024) ++
         "\\u" ++ hex4 (56320 + (c.toNat - 65536) % 1024)
  else String.mk [c]

/-- Escape every character of a JSON string body. -/
def escList : List Char → String
  | [] => ""
  | c :: cs => jsonEscapeChar c ++ escList cs

/-- A JSON string literal. -/
def jsonStr (s : String) : String := "\"" ++ escList s.data ++ "\""

/-- A JSON value of the two shapes this program serializes. -/
inductive JVal where
  | str (s : String)
  | num (q : ℚ)
deriving DecidableEq

/-- Render one JSON value. -/
def renderJVal : JVal → String
  | .str s => jsonStr s
  | .num q => pyFloatRepr q

/-- The `"key": value` lines of `json.dump(..., indent=2)`, two-space
indented and comma separated. -/
def renderFieldLines : List (String × JVal) → String
  | [] => ""
  | [kv] => "  " ++ jsonStr kv.1 ++ ": " ++ renderJVal kv.2
  | kv :: rest =>
      "  " ++ jsonStr kv.1 ++ ": " ++ renderJVal kv.2 ++ ",\n" ++ renderFieldLines rest

/-- `json.dump(d, f, indent=2)` for a flat dict `d`, key order preserved. -/
def renderObj (fields : List (String × JVal)) : String :=
  if fields.isEmpty then "\x7b\x7d"
  else "\x7b\n" ++ renderFieldLines fields ++ "\n\x7d"

/-! ## Data model -/

/-- A session record, the dict built by `Memory.anchor`. -/
structure Record where
  id : String
  timestamp : String
  goal : String
  module : String
  score : ℚ
  justification : String
deriving DecidableEq

/-- The key/value pairs of the record dict, in the insertion order of
`Memory.anchor`. -/
def recordFields (r : Record) : List (String × JVal) :=
  [("id", .str r.id), ("timestamp", .str r.timestamp), ("goal", .str r.goal),
   ("module", .str r.module), ("score", .num r.score),
   ("justification", .str r.justification)]

/-- The serialized form of a record, as `json.dump(r, f, indent=2)` writes it. -/
def renderRecord (r : Record) : String := renderObj (recordFields r)

/-- The write log of the process: each `open(fn, 'w')`/`json.dump` appends a
(file name, contents) event; on lookup a later event overwrites an earlier. -/
abbrev FS := List (String × String)

/-- The nondeterministic inputs of one dispatch iteration: the value
`uuid.uuid4()` would produce, the value `datetime.now().isoformat()` would
produce, and which file names `open(fn, 'w')` succeeds for. -/
structure Env where
  freshId : String
  now : String
  writeOk : String → Bool

/-- The exceptions the dispatch loop can die of: the `ValueError` of a
failed 2-tuple unpacking, and the `IOError` of a failed record write.
Neither is caught anywhere in the source. -/
inductive KErr where
  | valueError
  | ioError
deriving DecidableEq

/-- The mutable state: `Memory.records` and the on-disk mirror. -/
structure KState where
  records : List Record
  fs : FS
deriving DecidableEq

/-! ## Stub tables (`llm_understand`, `llm_match`) -/

/-- The dict returned by `llm_understand`: constants, the prompt is ignored. -/
structure Understanding where
  intent : String
  goal_class : String
  urgency : String
  tone : String
deriving DecidableEq

/-- `llm_understand(prompt)`. -/
def llm_understand (_prompt : String) : Understanding :=
  { intent := "build educational chatbot", goal_class := "tutoring",
    urgency := "medium", tone := "logical" }

/-- The `candidates` dict of `llm_match`, in its insertion order. -/
def candidates : List (String × ℚ) :=
  [("flow.study", q091), ("quiz.kernel", q083), ("feedback.kernel", q076)]

/-- Stable insertion step for descending sort: an element inserted from the
left goes before equal keys, as Python's stable `sorted(..., reverse=True)`. -/
def insertByScore (x : String × ℚ) : List (String × ℚ) → List (String × ℚ)
  | [] => [x]
  | y :: ys => if x.2 ≥ y.2 then x :: y :: ys else y :: insertByScore x ys

/-- `sorted(candidates.items(), key=lambda x: x[1], reverse=True)`. -/
def sortByScoreDesc : List (String × ℚ) → List (String × ℚ)
  | [] => []
  | x :: xs => insertByScore x (sortByScoreDesc xs)

/-- The dict returned by `llm_match`. -/
structure MatchResult where
  primary_module : String
  backup_module : String
  score : ℚ
  justification : String
deriving DecidableEq

/-- `llm_match(goal_class)`: the two best-ranked candidates and the top
score, with the f-string justification. -/
def llm_match (goal_class : String) : MatchResult :=
  let sorted_candidates := sortByScoreDesc candidates
  let primary := sorted_candidates.getD 0 ("", 0)
  let backup := sorted_candidates.getD 1 ("", 0)
  { primary_module := primary.1, backup_module := backup.1, score := primary.2,
    justification := "Matched " ++ primary.1 ++ " for goal_class '" ++ goal_class
      ++ "' with confidence " ++ pyFloatRepr primary.2 }

/-! ## Memory kernel -/

/-- The file name `export_docs` writes: `andromeda_log_` + `record['id'][:8]`
+ `.json`. -/
def logFileName (r : Record) : String :=
  "andromeda_log_" ++ strTake r.id 8 ++ ".json"

/-- `export_docs(record)`: one `open(fn, 'w')` + `json.dump(record, f,
indent=2)`.  The write either appends one event to the log or raises the
uncaught `IOError`, per the environment's oracle. -/
def export_docs (env : Env) (r : Record) (fs : FS) : Except KErr FS :=
  let fn := logFileName r
  if env.writeOk fn = true then .ok (List.append fs [(fn, renderRecord r)])
  else .error .ioError

/-- `Memory.anchor(goal, module, score, justification)`: builds the record
from the environment's fresh id and timestamp, appends it to `records`,
exports it, and — having no `return` statement — returns Python `None`,
modelled by the final `Option Record` component being `none`.  When the
export raises, the process dies with the exception (the in-memory append is
then unobservable, so the error carries no state). -/
def anchor (env : Env) (records : List Record) (fs : FS)
    (goal module : String) (score : ℚ) (justification : String) :
    Except KErr (List Record × FS × Option Record) :=
  let r : Record := { id := env.freshId, timestamp := env.now, goal := goal,
                      module := module, score := score, justification := justification }
  match export_docs env r fs with
  | .ok fs2 => .ok (List.append records [r], fs2, none)
  | .error e => .error e

/-- The match list `Memory.recall` builds and prints:
`[r for r in records if query.lower() in r['goal'].lower()]`. -/
def recallMatches (records : List Record) (query : String) : List Record :=
  records.filter (fun r => strIn (pyLower query) (pyLower r.goal))

/-- Python `records[-5:]`, the slice `map_flows` renders. -/
def lastFive (l : List Record) : List Record := l.drop (l.length - 5)

/-- One body line of the flow map:
`│ {timestamp.split('T')[0]} → {module:<20} │`. -/
def renderFlowLine (r : Record) : String :=
  "│ " ++ beforeT r.timestamp ++ " → " ++ padTo r.module 20 ++ " │"

/-- The two lines `map_flows` prints before the records. -/
def mapHeader : List String :=
  ["[MAP] Rendering symbolic flow map:", "┌────────────────────────────────┐"]

/-- The closing line of the flow map. -/
def mapFooter : String := "└────────────────────────────────┘"

/-- `map_flows(records)`: the printed lines, in order. -/
def map_flows (records : List Record) : List String :=
  mapHeader ++ (lastFive records).map renderFlowLine ++ [mapFooter]

/-! ## Kernel core and dispatch loop -/

/-- The `if score >= 0.9 / else` branch of `AndromedaKernel.launch` (lines
172–182), parameterized by the match result it inspects: the primary module
is anchored at or above the threshold, the backup module below it. -/
def launchCore (env : Env) (st : KState) (goal : String) (mr : MatchResult) :
    Except KErr KState :=
  if mr.score ≥ q090 then
    match anchor env st.records st.fs goal mr.primary_module mr.score mr.justification with
    | .ok (recs, fs2, _) => .ok ⟨recs, fs2⟩
    | .error e => .error e
  else
    match anchor env st.records st.fs goal mr.backup_module mr.score mr.justification with
    | .ok (recs, fs2, _) => .ok ⟨recs, fs2⟩
    | .error e => .error e

/-- `AndromedaKernel.launch(user_prompt)`, restricted to its store effect
(all other calls it makes are print-only). -/
def launch (env : Env) (st : KState) (user_prompt : String) : Except KErr KState :=
  let parsed := llm_understand user_prompt
  launchCore env st parsed.intent (llm_match parsed.goal_class)

/-- What one loop iteration visibly did, beyond the state change. -/
inductive Act where
  | recalled (ms : List Record)
  | mapped (lines : List String)
  | chaosRun
  | pluginRun
  | devPatched (module patch : String)
  | launched
deriving DecidableEq

/-- The outcome of one loop iteration that did not raise. -/
inductive StepRes where
  | stopped
  | idle (st : KState) (act : Act)
deriving DecidableEq

/-- One iteration of the `while True` dispatch loop (lines 193–203),
condition for condition.  The `dev` branch models
`mod, patch = map(str.strip, cmd.split('|'))`: unpacking succeeds exactly
when the split has two groups, and otherwise raises the uncaught
`ValueError`. -/
def step (env : Env) (st : KState) (cmd : String) : Except KErr StepRes :=
  if pyLower cmd = "exit" then .ok .stopped
  else if strStartsWith (pyLower cmd) "recall " = true then
    .ok (.idle st (.recalled (recallMatches st.records (afterFirstSplit cmd))))
  else if pyLower cmd = "map" then .ok (.idle st (.mapped (map_flows st.records)))
  else if pyLower cmd = "chaos" then .ok (.idle st .chaosRun)
  else if pyLower cmd = "plugin" then .ok (.idle st .pluginRun)
  else if strStartsWith (pyLower cmd) "dev" = true ∧ strHasChar cmd '|' = true then
    match (splitCh '|' cmd.data).map (fun g => String.mk (stripChars g)) with
    | [m, p] => .ok (.idle st (.devPatched (lastSpaceGroup m) p))
    | _ => .error .valueError
  else
    match launch env st cmd with
    | .ok st2 => .ok (.idle st2 .launched)
    | .error e => .error e

/-! ## Derived constants of the default pipeline -/

/-- The one record any default-pipeline invocation appends: every field
except the id and timestamp is a constant of the stub tables. -/
def pipelineRecord (env : Env) : Record :=
  { id := env.freshId, timestamp := env.now,
    goal := "build educational chatbot", module := "flow.study", score := q091,
    justification := "Matched flow.study for goal_class 'tutoring' with confidence 0.91" }

/-- The log file name of the default pipeline's record. -/
def logName (env : Env) : String := "andromeda_log_" ++ strTake env.freshId 8 ++ ".json"

/-- A concrete environment for witnesses: fixed id and time, all writes
succeed. -/
def cenv : Env :=
  { freshId := "0a1b2c3d-0000-4000-8000-000000000000",
    now := "2025-05-05T12:00:00.000000", writeOk := fun _ => true }

/-! ## Helper lemmas -/

deriving instance DecidableEq for Except

/-- The Bool `startswith` model agrees with list prefixhood. -/
theorem listPrefOf_iff (a b : List Char) : listPrefOf a b = true ↔ a <+: b := by
  induction a generalizing b with
  | nil => simp [listPrefOf]
  | cons x xs ih =>
    cases b with
    | nil => simp [listPrefOf]
    | cons y ys =>
      simp [listPrefOf, List.cons_prefix_cons, ih, Bool.and_eq_true, beq_iff_eq]

/-- The Bool substring model (Python `in`) agrees with list infixhood. -/
theorem listSub_iff (a b : List Char) : listSub a b = true ↔ a <:+: b := by
  induction b with
  | nil =>
    simp only [listSub, List.infix_nil, List.isEmpty_iff]
  | cons y ys ih =>
    simp [listSub, Bool.or_eq_true, listPrefOf_iff, ih, List.infix_cons_iff]

/-- `splitCh` never produces the empty group list. -/
theorem splitCh_ne_nil (c : Char) (l : List Char) : splitCh c l ≠ [] := by
  cases l with
  | nil => simp [splitCh]
  | cons a as =>
    simp only [splitCh]
    split
    · simp
    · split
      · simp
      · simp

/-- The number of groups of a split is the separator count plus one (so a
2-tuple unpacking of the split succeeds exactly for one separator). -/
theorem splitCh_length (c : Char) (l : List Char) :
    (splitCh c l).length = l.count c + 1 := by
  induction l with
  | nil => simp [splitCh]
  | cons a as ih =>
    by_cases hac : a = c
    · subst hac
      simp [splitCh, List.count_cons, ih]
    · rcases hs : splitCh c as with _ | ⟨g, gs⟩
      · exact absurd hs (splitCh_ne_nil c as)
      · have := ih
        rw [hs] at this
        simp only [splitCh, if_neg hac, hs, List.length_cons, List.count_cons]
        simp only [List.length_cons] at this
        simp [hac, this]

/-- A character list with `dev` as a prefix starts with those three
letters. -/
theorem dev_head_list (l : List Char) (h : listPrefOf (['d', 'e', 'v']) l = true) :
    ∃ t, l = 'd' :: 'e' :: 'v' :: t := by
  rcases l with _ | ⟨a, _ | ⟨b, _ | ⟨c, t⟩⟩⟩
  · simp [listPrefOf] at h
  · simp [listPrefOf, Bool.and_eq_true] at h
  · simp [listPrefOf, Bool.and_eq_true] at h
  · simp only [listPrefOf, Bool.and_eq_true, beq_iff_eq] at h
    obtain ⟨h1, h2, h3, -⟩ := h
    subst h1; subst h2; subst h3
    exact ⟨t, rfl⟩

/-- A `dev`-headed line never matches the earlier dispatch guards. -/
theorem dev_guards_false (s : String) (h : strStartsWith s "dev" = true) :
    ¬ s = "exit" ∧ ¬ strStartsWith s "recall " = true ∧ ¬ s = "map" ∧
    ¬ s = "chaos" ∧ ¬ s = "plugin" := by
  have hl : listPrefOf (['d', 'e', 'v']) s.data = true := h
  obtain ⟨t, ht⟩ := dev_head_list s.data hl
  refine ⟨?_, ?_, ?_, ?_, ?_⟩
  · intro he
    rw [he] at ht
    have ht2 : (['e', 'x', 'i', 't']) = 'd' :: 'e' :: 'v' :: t := ht
    injection ht2 with h1 _
    exact absurd h1 (by decide)
  · intro hr
    have hr2 : listPrefOf (['r', 'e', 'c', 'a', 'l', 'l', ' ']) s.data = true := hr
    rw [ht] at hr2
    exact absurd (show false = true from hr2) (by decide)
  · intro he
    rw [he] at ht
    have ht2 : (['m', 'a', 'p']) = 'd' :: 'e' :: 'v' :: t := ht
    injection ht2 with h1 _
    exact absurd h1 (by decide)
  · intro he
    rw [he] at ht
    have ht2 : (['c', 'h', 'a', 'o', 's']) = 'd' :: 'e' :: 'v' :: t := ht
    injection ht2 with h1 _
    exact absurd h1 (by decide)
  · intro he
    rw [he] at ht
    have ht2 : (['p', 'l', 'u', 'g', 'i', 'n']) = 'd' :: 'e' :: 'v' :: t := ht
    injection ht2 with h1 _
    exact absurd h1 (by decide)

/-- The table constant `q091` denotes the decimal of the source. -/
theorem q091_eq : q091 = 0.91 := by
  unfold q091; rw [Rat.mk'_eq_divInt]; norm_num [Rat.divInt_eq_div]

/-- The threshold constant denotes `0.9`. -/
theorem q090_eq : q090 = 0.9 := by
  unfold q090; rw [Rat.mk'_eq_divInt]; norm_num [Rat.divInt_eq_div]

/-- The stub matcher on the stub classifier's class: concrete top and
runner-up of the static ranking table. -/
theorem llm_match_tutoring :
    llm_match "tutoring" =
      { primary_module := "flow.study", backup_module := "quiz.kernel", score := q091,
        justification := "Matched flow.study for goal_class 'tutoring' with confidence 0.91" } := by
  decide

/-- `anchor` in closed form: either the record and its export event are
appended and `None` is returned, or the uncaught `IOError` propagates. -/
theorem anchor_eq (env : Env) (records : List Record) (fs : FS)
    (g m : String) (sc : ℚ) (j : String) :
    anchor env records fs g m sc j =
      if env.writeOk (logFileName ⟨env.freshId, env.now, g, m, sc, j⟩) = true then
        .ok (records ++ [⟨env.freshId, env.now, g, m, sc, j⟩],
             fs ++ [(logFileName ⟨env.freshId, env.now, g, m, sc, j⟩,
                     renderRecord ⟨env.freshId, env.now, g, m, sc, j⟩)], none)
      else .error .ioError := by
  unfold anchor export_docs
  cases h : env.writeOk (logFileName ⟨env.freshId, env.now, g, m, sc, j⟩) with
  | true => simp [h]
  | false => simp [h]

/-- `launch` reduces to one `anchor` call at the stub tables' constants:
the score `0.91` clears the threshold, so the primary module is anchored
whatever the prompt was. -/
theorem launch_eq (env : Env) (st : KState) (p : String) :
    launch env st p =
      match anchor env st.records st.fs "build educational chatbot" "flow.study" q091
              "Matched flow.study for goal_class 'tutoring' with confidence 0.91" with
      | .ok (recs, fs2, _) => .ok ⟨recs, fs2⟩
      | .error e => .error e := rfl

/-- The pipeline record's log file name is the environment's log name. -/
theorem logFileName_pipeline (env : Env) :
    logFileName (pipelineRecord env) = logName env := rfl

/-- `launch` in closed form: the prompt is irrelevant, the pipeline record
is appended (and exported) when the write succeeds, and the uncaught
`IOError` propagates when it fails. -/
theorem launch_eq2 (env : Env) (st : KState) (p : String) :
    launch env st p =
      if env.writeOk (logName env) = true then
        .ok ⟨st.records ++ [pipelineRecord env],
             st.fs ++ [(logName env, renderRecord (pipelineRecord env))]⟩
      else .error .ioError := by
  rw [launch_eq, anchor_eq]
  have hrec : (⟨env.freshId, env.now, "build educational chatbot", "flow.study", q091,
      "Matched flow.study for goal_class 'tutoring' with confidence 0.91"⟩ : Record) =
      pipelineRecord env := rfl
  rw [hrec, logFileName_pipeline]
  cases hw : env.writeOk (logName env) with
  | true => rfl
  | false => rfl

/-! ## Claim C1 -/

/-- Claim C1 counterexample: on the line `dev studymod` (no separator) the
dispatch loop reports no usage error — no such reporting exists in the
source — and does create a record: starting from the empty store the
iteration ends with one record anchored by the default pipeline, refuting
the claim's "UsageError reported, no record created". -/
theorem c1_counterexample :
    step cenv ⟨[], []⟩ "dev studymod" =
      .ok (.idle ⟨[pipelineRecord cenv],
                  [(logName cenv, renderRecord (pipelineRecord cenv))]⟩ .launched) := by
  rfl

/-- Claim C1 (corrected): for the line `dev studymod` the router reports no
usage error; the line fails the dev guard (no `'|'`) and falls through to
the default pipeline, which appends exactly one record, and the loop stays
in the Idle state. -/
theorem c1_amended (env : Env) (st : KState)
    (hw : env.writeOk (logName env) = true) :
    step env st "dev studymod" =
      .ok (.idle ⟨st.records ++ [pipelineRecord env],
                  st.fs ++ [(logName env, renderRecord (pipelineRecord env))]⟩ .launched) := by
  have h : step env st "dev studymod" =
      match launch env st "dev studymod" with
      | .ok st2 => .ok (.idle st2 .launched)
      | .error e => .error e := rfl
  rw [h, launch_eq2, if_pos hw]

/-- Claim C1 witness: the amended claim at the concrete environment and the
empty store. -/
theorem c1_amended_witness :
    step cenv ⟨[], []⟩ "dev studymod" =
      .ok (.idle ⟨[pipelineRecord cenv],
                  [(logName cenv, renderRecord (pipelineRecord cenv))]⟩ .launched) :=
  c1_amended cenv ⟨[], []⟩ rfl

/-! ## Claim C2 -/

/-- Claim C2 counterexample: the line `chaos` is not `exit`, is no
`recall ` line, is not `map`, and is no dev command, yet the router does
not run the default pipeline: it runs the canned chaos stub and appends no
record to the empty store. -/
theorem c2_counterexample :
    step cenv ⟨[], []⟩ "chaos" = .ok (.idle ⟨[], []⟩ .chaosRun) ∧
    ¬ pyLower "chaos" = "exit" ∧
    strStartsWith (pyLower "chaos") "recall " = false ∧
    ¬ pyLower "chaos" = "map" ∧
    strStartsWith (pyLower "chaos") "dev" = false := by
  exact ⟨rfl, by decide, by decide, by decide, by decide⟩

/-- Claim C2 (corrected): an input that is none of `exit`, a `recall `
line, `map`, `chaos`, `plugin`, or a dev command (the source also
dispatches the canned `chaos` and `plugin` stubs before the default case)
runs the default pipeline and appends exactly one record. -/
theorem c2_amended (env : Env) (st : KState) (cmd : String)
    (h1 : ¬ pyLower cmd = "exit")
    (h2 : ¬ strStartsWith (pyLower cmd) "recall " = true)
    (h3 : ¬ pyLower cmd = "map")
    (h4 : ¬ pyLower cmd = "chaos")
    (h5 : ¬ pyLower cmd = "plugin")
    (h6 : ¬ (strStartsWith (pyLower cmd) "dev" = true ∧ strHasChar cmd '|' = true))
    (hw : env.writeOk (logName env) = true) :
    step env st cmd =
      .ok (.idle ⟨st.records ++ [pipelineRecord env],
                  st.fs ++ [(logName env, renderRecord (pipelineRecord env))]⟩ .launched) := by
  unfold step
  rw [if_neg h1, if_neg h2, if_neg h3, if_neg h4, if_neg h5, if_neg h6, launch_eq2, if_pos hw]

/-- Claim C2 witness: the amended claim at a concrete free-text line. -/
theorem c2_amended_witness :
    step cenv ⟨[], []⟩ "I want to study for my exam" =
      .ok (.idle ⟨[pipelineRecord cenv],
                  [(logName cenv, renderRecord (pipelineRecord cenv))]⟩ .launched) :=
  c2_amended cenv ⟨[], []⟩ "I want to study for my exam" (by decide) (by decide) (by decide)
    (by decide) (by decide) (by decide) rfl

/-! ## Claim C3 -/

/-- Claim C3 counterexample: the line `dev a|b|c` starts with `dev` and
holds two separator characters; `mod, patch = map(str.strip, cmd.split('|'))`
then unpacks a 3-element split and raises an uncaught `ValueError`: the
process crashes, refuting "any line starting with dev and containing one or
more separators is handled without an unhandled exception". -/
theorem c3_counterexample :
    step cenv ⟨[], []⟩ "dev a|b|c" = .error .valueError := by
  rfl

/-- Claim C3 (corrected): a line whose lowering starts with `dev` and that
holds exactly one `'|'` is handled by the dev stub without any exception,
with the store unchanged and the loop back in Idle; but neither error kind
is actually caught: a dev line with two or more separators raises an
uncaught `ValueError` (see the counterexample), and a record write failure
during the default pipeline raises an uncaught `IOError` instead of being
reported. -/
theorem c3_amended (env : Env) (st : KState) (cmd : String)
    (hdev : strStartsWith (pyLower cmd) "dev" = true)
    (hone : cmd.data.count '|' = 1) :
    (∃ m p, step env st cmd = .ok (.idle st (.devPatched m p))) ∧
    (∀ env2 : Env, ∀ st2 : KState, env2.writeOk (logName env2) = false →
      step env2 st2 "I want to study for my exam" = .error .ioError) := by
  constructor
  · obtain ⟨hne, hnr, hnm, hnc, hnp⟩ := dev_guards_false (pyLower cmd) hdev
    have hmem : '|' ∈ cmd.data := List.count_pos_iff.mp (by omega)
    have hbar : strHasChar cmd '|' = true := by
      unfold strHasChar
      rw [List.contains_iff_exists_mem_beq]
      exact ⟨'|', hmem, rfl⟩
    have hlen : (splitCh '|' cmd.data).length = 2 := by rw [splitCh_length, hone]
    rcases hsp : splitCh '|' cmd.data with _ | ⟨a, _ | ⟨b, _ | ⟨c, t⟩⟩⟩
    · exact absurd hsp (splitCh_ne_nil _ _)
    · rw [hsp] at hlen; simp at hlen
    · refine ⟨lastSpaceGroup (String.mk (stripChars a)), String.mk (stripChars b), ?_⟩
      unfold step
      rw [if_neg hne, if_neg hnr, if_neg hnm, if_neg hnc, if_neg hnp,
          if_pos (And.intro hdev hbar), hsp]
      exact rfl
    · rw [hsp] at hlen; simp at hlen
  · intro env2 st2 hw2
    have h : step env2 st2 "I want to study for my exam" =
        match launch env2 st2 "I want to study for my exam" with
        | .ok st3 => .ok (.idle st3 .launched)
        | .error e => .error e := rfl
    rw [h, launch_eq2, if_neg (by simp [hw2])]

/-- Claim C3 witness: the amended claim at a well-formed dev line and, for
the failure half, quantified over failing environments. -/
theorem c3_amended_witness :
    (∃ m p, step cenv ⟨[], []⟩ "dev flow.study | add step" =
      .ok (.idle ⟨[], []⟩ (.devPatched m p))) :=
  (c3_amended cenv ⟨[], []⟩ "dev flow.study | add step" (by decide) (by decide)).1

/-! ## Claim C4 -/

/-- Claim C4: `recall` selects, in insertion order (the selection is a
sublist of the store), exactly the records whose goal holds the query as a
case-insensitive substring, and selects the empty sequence — with no
error — when nothing matches, in particular on the empty store. -/
theorem c4_recall_selects (records : List Record) (q : String) :
    List.Sublist (recallMatches records q) records ∧
    (∀ r, r ∈ recallMatches records q ↔
      r ∈ records ∧ (pyLower q).data <:+: (pyLower r.goal).data) ∧
    recallMatches ([] : List Record) q = [] ∧
    ((∀ r ∈ records, ¬ (pyLower q).data <:+: (pyLower r.goal).data) →
      recallMatches records q = []) := by
  refine ⟨List.filter_sublist _, ?_, rfl, ?_⟩
  · intro r
    simp [recallMatches, List.mem_filter, strIn, listSub_iff]
  · intro hno
    simp only [recallMatches, List.filter_eq_nil_iff]
    intro r hr
    simpa [strIn, listSub_iff] using hno r hr

/-- Claim C4 witness: a store with one record and a query matching none. -/
theorem c4_witness :
    recallMatches [pipelineRecord cenv] "quiz" = [] :=
  (c4_recall_selects [pipelineRecord cenv] "quiz").2.2.2 (by decide)

/-! ## Claim C5 -/

/-- Claim C5: the `map` command renders, between the fixed header and
footer lines, exactly the slice `records[-5:]`: a suffix of the store of
length `min 5 n` in insertion order — the last five records, or all of
them when the store holds fewer than five. -/
theorem c5_map_renders (env : Env) (st : KState) :
    step env st "map" = .ok (.idle st (.mapped (map_flows st.records))) ∧
    map_flows st.records =
      mapHeader ++ (lastFive st.records).map renderFlowLine ++ [mapFooter] ∧
    lastFive st.records <:+ st.records ∧
    (lastFive st.records).length = min 5 st.records.length := by
  refine ⟨rfl, rfl, List.drop_suffix _ _, ?_⟩
  simp only [lastFive, List.length_drop]
  omega

/-! ## Claim C6 -/

/-- Claim C6: in the pipeline branch a match whose score is at least `0.9`
anchors the primary module and a lower score anchors the backup module;
on the scenario line "I want to study for my exam" the matched score is
`0.91 ≥ 0.9`, so exactly one record is anchored carrying the primary
module `flow.study` with score `0.91`. -/
theorem c6_threshold (env : Env) (st : KState) (g : String) (mr : MatchResult)
    (hw : env.writeOk (logName env) = true) :
    (mr.score ≥ 0.9 →
      launchCore env st g mr =
        .ok ⟨st.records ++ [⟨env.freshId, env.now, g, mr.primary_module, mr.score, mr.justification⟩],
             st.fs ++ [(logName env,
               renderRecord ⟨env.freshId, env.now, g, mr.primary_module, mr.score, mr.justification⟩)]⟩) ∧
    (¬ mr.score ≥ 0.9 →
      launchCore env st g mr =
        .ok ⟨st.records ++ [⟨env.freshId, env.now, g, mr.backup_module, mr.score, mr.justification⟩],
             st.fs ++ [(logName env,
               renderRecord ⟨env.freshId, env.now, g, mr.backup_module, mr.score, mr.justification⟩)]⟩) ∧
    step env st "I want to study for my exam" =
      .ok (.idle ⟨st.records ++ [pipelineRecord env],
                  st.fs ++ [(logName env, renderRecord (pipelineRecord env))]⟩ .launched) ∧
    (pipelineRecord env).module = "flow.study" ∧
    (pipelineRecord env).module = (llm_match "tutoring").primary_module ∧
    (pipelineRecord env).score = 0.91 := by
  refine ⟨?_, ?_, ?_, rfl, rfl, q091_eq⟩
  · intro h
    rw [← q090_eq] at h
    unfold launchCore
    rw [if_pos h, anchor_eq]
    have hw1 : env.writeOk
        (logFileName ⟨env.freshId, env.now, g, mr.primary_module, mr.score, mr.justification⟩) =
        true := hw
    rw [if_pos hw1]
    exact rfl
  · intro h
    rw [← q090_eq] at h
    unfold launchCore
    rw [if_neg h, anchor_eq]
    have hw1 : env.writeOk
        (logFileName ⟨env.freshId, env.now, g, mr.backup_module, mr.score, mr.justification⟩) =
        true := hw
    rw [if_pos hw1]
    exact rfl
  · have h : step env st "I want to study for my exam" =
        match launch env st "I want to study for my exam" with
        | .ok st2 => .ok (.idle st2 .launched)
        | .error e => .error e := rfl
    rw [h, launch_eq2, if_pos hw]

/-- Claim C6 witness: the threshold branch at the table's own match result,
whose score clears the threshold. -/
theorem c6_witness :
    launchCore cenv ⟨[], []⟩ "g" (llm_match "tutoring") =
      .ok ⟨[⟨cenv.freshId, cenv.now, "g", (llm_match "tutoring").primary_module,
             (llm_match "tutoring").score, (llm_match "tutoring").justification⟩],
           [(logName cenv, renderRecord ⟨cenv.freshId, cenv.now, "g",
             (llm_match "tutoring").primary_module, (llm_match "tutoring").score,
             (llm_match "tutoring").justification⟩)]⟩ :=
  (c6_threshold cenv ⟨[], []⟩ "g" (llm_match "tutoring") rfl).1
    (by show (0.9:ℚ) ≤ q091; rw [q091_eq]; norm_num)

/-! ## Claim C7 -/

/-- Claim C7 counterexample: `Memory.anchor` has no `return` statement, so
its caller receives Python `None` (the final `none` component below), not
the constructed record — refuting "returns that Record to its caller".
The record itself is appended and exported as claimed. -/
theorem c7_counterexample :
    anchor cenv [] [] "study plan" "flow.study" q091 "note" =
      .ok ([⟨cenv.freshId, cenv.now, "study plan", "flow.study", q091, "note"⟩],
           [(logFileName ⟨cenv.freshId, cenv.now, "study plan", "flow.study", q091, "note"⟩,
             renderRecord ⟨cenv.freshId, cenv.now, "study plan", "flow.study", q091, "note"⟩)],
           none) := by
  rfl

/-- Claim C7 (corrected): `anchor` constructs the record from the fresh id
and current timestamp, appends it at the end of the collection, persists it
to exactly one file — and returns `None` (no value) to its caller. -/
theorem c7_amended (env : Env) (records : List Record) (fs : FS)
    (g m : String) (sc : ℚ) (j : String)
    (hw : env.writeOk (logFileName ⟨env.freshId, env.now, g, m, sc, j⟩) = true) :
    anchor env records fs g m sc j =
      .ok (records ++ [⟨env.freshId, env.now, g, m, sc, j⟩],
           fs ++ [(logFileName ⟨env.freshId, env.now, g, m, sc, j⟩,
                   renderRecord ⟨env.freshId, env.now, g, m, sc, j⟩)], none) := by
  rw [anchor_eq, if_pos hw]

/-- Claim C7 witness: the amended claim at concrete arguments. -/
theorem c7_amended_witness :
    anchor cenv [] [] "teach me physics" "quiz.kernel" q083 "why not" =
      .ok ([⟨cenv.freshId, cenv.now, "teach me physics", "quiz.kernel", q083, "why not"⟩],
           [(logFileName ⟨cenv.freshId, cenv.now, "teach me physics", "quiz.kernel", q083, "why not"⟩,
             renderRecord ⟨cenv.freshId, cenv.now, "teach me physics", "quiz.kernel", q083, "why not"⟩)],
           none) :=
  c7_amended cenv [] [] "teach me physics" "quiz.kernel" q083 "why not" rfl

/-! ## Claim C8 -/

/-- Claim C8: a successful `export_docs` appends exactly one file event,
whose name is the fixed prefix `andromeda_log_` followed by the first 8
characters of the record id and `.json`, and whose contents are the
2-space-indented JSON object holding exactly the six fields of the data
model, in order: string id, string timestamp, string goal, string module,
numeric score, string justification. -/
theorem c8_persisted_layout (env : Env) (r : Record) (fs : FS)
    (hw : env.writeOk (logFileName r) = true) :
    export_docs env r fs = .ok (fs ++ [(logFileName r, renderRecord r)]) ∧
    logFileName r = "andromeda_log_" ++ strTake r.id 8 ++ ".json" ∧
    renderRecord r = renderObj (recordFields r) ∧
    (recordFields r).map Prod.fst =
      ["id", "timestamp", "goal", "module", "score", "justification"] ∧
    recordFields r =
      [("id", .str r.id), ("timestamp", .str r.timestamp), ("goal", .str r.goal),
       ("module", .str r.module), ("score", .num r.score),
       ("justification", .str r.justification)] := by
  refine ⟨?_, rfl, rfl, rfl, rfl⟩
  unfold export_docs
  cases hv : env.writeOk (logFileName r) with
  | true => simp [hv]
  | false => rw [hv] at hw; exact absurd hw (by simp)

/-- Claim C8 witness: export of the pipeline record to the empty log. -/
theorem c8_witness :
    export_docs cenv (pipelineRecord cenv) [] =
      .ok [(logFileName (pipelineRecord cenv), renderRecord (pipelineRecord cenv))] :=
  (c8_persisted_layout cenv (pipelineRecord cenv) [] rfl).1

/-! ## Claim C9 -/

/-- Claim C9: one dispatch iteration never mutates or deletes an existing
record: the prior collection is always a prefix of the new one (an
append), the read-only commands (recall, map, chaos, plugin, dev) leave
the collection unchanged, and a pipeline iteration appends exactly one
record at the end. -/
theorem c9_append_only (env : Env) (st st2 : KState) (cmd : String) (a : Act)
    (h : step env st cmd = .ok (.idle st2 a)) :
    (∃ t, st2.records = st.records ++ t) ∧
    (st2.records = st.records ∨ st2.records = st.records ++ [pipelineRecord env]) ∧
    (a = .launched → st2.records = st.records ++ [pipelineRecord env]) ∧
    (a ≠ .launched → st2.records = st.records) := by
  unfold step at h
  split at h
  · simp at h
  · split at h
    · rw [Except.ok.injEq, StepRes.idle.injEq] at h
      obtain ⟨h1, h2⟩ := h
      subst h1; subst h2
      exact ⟨⟨[], by simp⟩, Or.inl rfl, fun hla => absurd hla (by simp), fun _ => rfl⟩
    · split at h
      · rw [Except.ok.injEq, StepRes.idle.injEq] at h
        obtain ⟨h1, h2⟩ := h
        subst h1; subst h2
        exact ⟨⟨[], by simp⟩, Or.inl rfl, fun hla => absurd hla (by simp), fun _ => rfl⟩
      · split at h
        · rw [Except.ok.injEq, StepRes.idle.injEq] at h
          obtain ⟨h1, h2⟩ := h
          subst h1; subst h2
          exact ⟨⟨[], by simp⟩, Or.inl rfl, fun hla => absurd hla (by simp), fun _ => rfl⟩
        · split at h
          · rw [Except.ok.injEq, StepRes.idle.injEq] at h
            obtain ⟨h1, h2⟩ := h
            subst h1; subst h2
            exact ⟨⟨[], by simp⟩, Or.inl rfl, fun hla => absurd hla (by simp), fun _ => rfl⟩
          · split at h
            · split at h
              · rw [Except.ok.injEq, StepRes.idle.injEq] at h
                obtain ⟨h1, h2⟩ := h
                subst h1; subst h2
                exact ⟨⟨[], by simp⟩, Or.inl rfl, fun hla => absurd hla (by simp),
                       fun _ => rfl⟩
              · simp at h
            · rw [launch_eq2] at h
              by_cases hw : env.writeOk (logName env) = true
              · rw [if_pos hw, Except.ok.injEq, StepRes.idle.injEq] at h
                obtain ⟨h1, h2⟩ := h
                subst h1; subst h2
                exact ⟨⟨[pipelineRecord env], rfl⟩, Or.inr rfl, fun _ => rfl,
                       fun hne => absurd rfl hne⟩
              · rw [if_neg hw] at h
                simp at h

/-- Claim C9 witness: the invariant at a concrete chaos iteration. -/
theorem c9_witness :
    (∃ t, ([] : List Record) = [] ++ t) ∧
    (([] : List Record) = [] ∨ ([] : List Record) = [] ++ [pipelineRecord cenv]) ∧
    (Act.chaosRun = Act.launched → ([] : List Record) = [] ++ [pipelineRecord cenv]) ∧
    (Act.chaosRun ≠ Act.launched → ([] : List Record) = []) :=
  c9_append_only cenv ⟨[], []⟩ ⟨[], []⟩ "chaos" Act.chaosRun rfl

/-! ## Claim C10 -/

/-- Claim C10: the default pipeline ignores its input: two launches on any
two prompts from the same store produce the same result, the one appended
record carries the fixed constants (goal "build educational chatbot",
module "flow.study" — the primary module —, score 0.91, and the table's
justification string), so any two anchored records agree on every field
except id and timestamp, and the backup branch is never taken since the
matched score always clears the 0.9 threshold. -/
theorem c10_pipeline_constant (env : Env) (st st2 : KState) (p q2 : String)
    (h : launch env st p = .ok st2) :
    launch env st q2 = .ok st2 ∧
    st2.records = st.records ++ [pipelineRecord env] ∧
    (pipelineRecord env).goal = "build educational chatbot" ∧
    (pipelineRecord env).module = "flow.study" ∧
    (pipelineRecord env).score = 0.91 ∧
    (pipelineRecord env).module = (llm_match "tutoring").primary_module ∧
    (llm_match "tutoring").score ≥ 0.9 ∧
    (pipelineRecord env).justification = (llm_match "tutoring").justification := by
  refine ⟨?_, ?_, rfl, rfl, q091_eq, rfl, ?_, rfl⟩
  · have he : launch env st q2 = launch env st p := rfl
    rw [he, h]
  · rw [launch_eq2] at h
    by_cases hw : env.writeOk (logName env) = true
    · rw [if_pos hw, Except.ok.injEq] at h
      subst h
      rfl
    · rw [if_neg hw] at h
      simp at h
  · show (0.9:ℚ) ≤ q091
    rw [q091_eq]
    norm_num

/-- Claim C10 witness: two different prompts from the empty store give the
same single anchored record. -/
theorem c10_witness :
    launch cenv ⟨[], []⟩ "please schedule an experiment" =
      .ok ⟨[pipelineRecord cenv], [(logName cenv, renderRecord (pipelineRecord cenv))]⟩ :=
  (c10_pipeline_constant cenv ⟨[], []⟩
      ⟨[pipelineRecord cenv], [(logName cenv, renderRecord (pipelineRecord cenv))]⟩
      "I want to study for my exam" "please schedule an experiment" (by rfl)).1
